import Mathlib

/-!
Shallow embedding of the customs-clearance shipment tracker (ccas backend).

Dates are modelled as integers (day numbers): Python `date` arithmetic
`d + timedelta(days=k)` becomes `d + k`, and `(a - b).days` becomes `a - b`.
Fixed-point currency amounts (3 decimal places) are integers of thousandths;
decimal step numbers (one decimal place) are integers of tenths.
Database rows are Lean structures; a table is a `List` of rows; a conditional
`UPDATE ... WHERE id=? AND version=?` returning its affected-row count is an
`if` on the stored row; errors raised by the Python code are values of an
error type.  Identifiers follow the Python source names.
-/

/-- `ShipmentStatus` enum from `app/models/shipment.py`. -/
inductive ShipmentStatus where
  | active
  | completed
  | cancelled
deriving DecidableEq, Repr

/-- `StepStatus` enum from `app/models/workflow_step.py`. -/
inductive StepStatus where
  | pending
  | completed
  | overdue
deriving DecidableEq, BEq, Repr

/-- `AlertSeverity` enum from `app/models/alert.py`. -/
inductive AlertSeverity where
  | warning
  | critical
  | urgent
deriving DecidableEq, Repr

/-- The string `value` of an `AlertSeverity` member. -/
def AlertSeverity.value : AlertSeverity → String
  | .warning => "warning"
  | .critical => "critical"
  | .urgent => "urgent"

/-- Typed errors raised by the services and repositories
(`ConcurrentModificationError` from `app/exceptions.py`; the `ValueError`
raised for the ETA edit limit in `ShipmentService.update_eta` plays the role
of the spec's `EditLimitExceeded`). -/
inductive ShipmentError where
  | concurrentModification
  | editLimitExceeded
  | notFound
deriving DecidableEq, Repr

/-- `Shipment` row (`app/models/shipment.py`).  `created_at`/`updated_at`
bookkeeping timestamps are omitted; `deleted_at` is kept as an optional day
number because soft delete is part of the row's state. -/
structure Shipment where
  id : Nat
  shipment_number : String
  principal : String
  brand : String
  lc_number : String
  invoice_amount_omr : Int
  eta : Int
  eta_edit_count : Nat
  status : ShipmentStatus
  version : Nat
  deleted_at : Option Int
deriving DecidableEq, Repr

/-- `WorkflowStep` row (`app/models/workflow_step.py`).  The database assigns
`id` on insert; generated rows carry `id = 0` until inserted. -/
structure WorkflowStep where
  id : Nat
  shipment_id : Nat
  step_number : Int
  step_name : String
  description : String
  department : String
  target_date : Int
  offset_days : Int
  actual_date : Option Int
  status : StepStatus
  is_critical : Bool
  ppr_user_id : Nat
  apr_user_id : Option Nat
deriving DecidableEq, Repr

/-- `Alert` row (`app/models/alert.py`).  The `email_sent_at` and
`acknowledged_at` timestamps are omitted: no claim depends on them, only on
the boolean flags and the retry counter. -/
structure Alert where
  id : Nat
  shipment_id : Nat
  workflow_step_id : Nat
  recipient_user_id : Nat
  severity : AlertSeverity
  message : String
  days_post_eta : Int
  is_acknowledged : Bool
  email_sent : Bool
  email_retry_count : Nat
deriving DecidableEq, Repr

/-- One entry of `WORKFLOW_STEP_TEMPLATES` / a row of `workflow_step_templates`
as converted by `WorkflowService._convert_db_templates_to_dict`. -/
structure TemplateDict where
  step_number : Int
  step_name : String
  description : String
  department : String
  offset_days : Int
  is_critical : Bool
deriving DecidableEq, Repr

/-- `ALERT_THRESHOLDS` from `app/utils/constants.py`. -/
def ALERT_THRESHOLDS.warning : Int := 4

/-- `ALERT_THRESHOLDS` from `app/utils/constants.py`. -/
def ALERT_THRESHOLDS.critical : Int := 5

/-- `ALERT_THRESHOLDS` from `app/utils/constants.py`. -/
def ALERT_THRESHOLDS.urgent : Int := 7

/-- `ShipmentRepository.update` (`app/repositories/shipment_repository.py`,
lines 39-84).  `stored` is the committed database row, `shipment` the row
object the caller read and mutated; `current_version` is the version the
caller last read.  The conditional `UPDATE ... WHERE id AND version` either
affects the row (success: version bumped by one) or affects zero rows, in
which case the transaction rolls back and `ConcurrentModificationError` is
raised leaving the stored row untouched.  Returns (call result, stored row
after the call). -/
def ShipmentRepository.update (stored shipment : Shipment) :
    Except ShipmentError Shipment × Shipment :=
  let current_version := shipment.version
  let updated := { shipment with version := current_version + 1 }
  if stored.id = shipment.id ∧ stored.version = current_version then
    (Except.ok updated, updated)
  else
    (Except.error ShipmentError.concurrentModification, stored)

/-- Claim C1: optimistic-locked shipment update — a write whose expected
version matches the stored version succeeds and bumps the stored version to
exactly old+1; a mismatched write fails with `ConcurrentModification` leaving
the stored row unmodified; of two updates starting from the same version the
second one (run against the row the first one left) always fails. -/
theorem shipment_update_optimistic_locking (stored s1 s2 : Shipment) :
    (stored.id = s1.id → stored.version = s1.version →
      ShipmentRepository.update stored s1 =
        (Except.ok { s1 with version := s1.version + 1 },
         { s1 with version := s1.version + 1 })) ∧
    (stored.version ≠ s1.version →
      ShipmentRepository.update stored s1 =
        (Except.error ShipmentError.concurrentModification, stored)) ∧
    (stored.id = s1.id → s1.id = s2.id → stored.version = s1.version →
      s1.version = s2.version →
      (ShipmentRepository.update
          (ShipmentRepository.update stored s1).2 s2).1 =
        Except.error ShipmentError.concurrentModification) := by
  refine ⟨?_, ?_, ?_⟩
  · intro hid hv
    simp [ShipmentRepository.update, hid, hv]
  · intro hv
    simp [ShipmentRepository.update, hv]
  · intro hid hid2 hv hv2
    have h1 : ShipmentRepository.update stored s1 =
        (Except.ok { s1 with version := s1.version + 1 },
         { s1 with version := s1.version + 1 }) := by
      simp [ShipmentRepository.update, hid, hv]
    rw [h1]
    have hne : s1.version + 1 ≠ s2.version := by omega
    simp [ShipmentRepository.update, hne]

/-- Witness for C1 at a concrete row: a stale writer (expected version 1
against stored version 2) is rejected. -/
theorem shipment_update_optimistic_locking_witness :
    ShipmentRepository.update
        { id := 1, shipment_number := "S-1", principal := "P", brand := "B",
          lc_number := "L", invoice_amount_omr := 10000000, eta := 100,
          eta_edit_count := 0, status := ShipmentStatus.active, version := 2,
          deleted_at := none }
        { id := 1, shipment_number := "S-1", principal := "P", brand := "B",
          lc_number := "L", invoice_amount_omr := 10000000, eta := 100,
          eta_edit_count := 0, status := ShipmentStatus.active, version := 1,
          deleted_at := none } =
      (Except.error ShipmentError.concurrentModification,
        { id := 1, shipment_number := "S-1", principal := "P", brand := "B",
          lc_number := "L", invoice_amount_omr := 10000000, eta := 100,
          eta_edit_count := 0, status := ShipmentStatus.active, version := 2,
          deleted_at := none }) :=
  (shipment_update_optimistic_locking _ _
    { id := 1, shipment_number := "S-1", principal := "P", brand := "B",
      lc_number := "L", invoice_amount_omr := 10000000, eta := 100,
      eta_edit_count := 0, status := ShipmentStatus.active, version := 1,
      deleted_at := none }).2.1 (by decide)

/-- `WorkflowRepository.update_target_dates_bulk`
(`app/repositories/workflow_repository.py`, lines 143-167): for every step of
the given shipment sets `target_date = new_eta + timedelta(days=offset_days)`;
other shipments' rows and all other fields are untouched. -/
def WorkflowRepository.update_target_dates_bulk (steps : List WorkflowStep)
    (shipment_id : Nat) (new_eta : Int) : List WorkflowStep :=
  steps.map (fun step =>
    if step.shipment_id = shipment_id then
      { step with target_date := new_eta + step.offset_days }
    else step)

/-- Result of `ShipmentService.update_eta`: the call outcome together with
the shipment row and workflow-step table left in the database (on error the
transaction leaves both exactly as they were). -/
structure EtaUpdateResult where
  result : Except ShipmentError Unit
  shipment : Shipment
  steps : List WorkflowStep
deriving Repr

/-- `ShipmentService.update_eta` (`app/services/shipment_service.py`, lines
191-270).  Rejects with the edit-limit error when `eta_edit_count >= 3`
before mutating anything; otherwise sets the new ETA, increments the edit
counter, writes through the optimistic-locking repository update (the stored
row is the row just loaded, so the version check compares the loaded
version against itself), and recalculates all the shipment's workflow-step
target dates inside the same transaction. -/
def ShipmentService.update_eta (shipment : Shipment)
    (steps : List WorkflowStep) (new_eta : Int) : EtaUpdateResult :=
  if shipment.eta_edit_count ≥ 3 then
    ⟨Except.error ShipmentError.editLimitExceeded, shipment, steps⟩
  else
    let mutated := { shipment with
      eta := new_eta, eta_edit_count := shipment.eta_edit_count + 1 }
    match ShipmentRepository.update shipment mutated with
    | (Except.error e, after) => ⟨Except.error e, after, steps⟩
    | (Except.ok updated, _) =>
        ⟨Except.ok (),
         updated,
         WorkflowRepository.update_target_dates_bulk steps shipment.id new_eta⟩

/-- Claim C2: after a successful ETA update, every workflow step of the
shipment has `target_date = new_eta + offset_days`, and every step (of this
or any other shipment) keeps its `actual_date` and `status` exactly as they
were before the update. -/
theorem update_eta_recalculates_target_dates (shipment : Shipment)
    (steps : List WorkflowStep) (new_eta : Int)
    (h : (ShipmentService.update_eta shipment steps new_eta).result =
      Except.ok ()) :
    List.Forall₂ (fun old new =>
        (old.shipment_id = shipment.id →
          new.target_date = new_eta + old.offset_days) ∧
        new.actual_date = old.actual_date ∧
        new.status = old.status)
      steps (ShipmentService.update_eta shipment steps new_eta).steps := by
  by_cases hc : shipment.eta_edit_count ≥ 3
  · simp [ShipmentService.update_eta, hc] at h
  · have hsteps : (ShipmentService.update_eta shipment steps new_eta).steps =
        WorkflowRepository.update_target_dates_bulk steps shipment.id new_eta := by
      simp [ShipmentService.update_eta, hc, ShipmentRepository.update]
    rw [hsteps]
    unfold WorkflowRepository.update_target_dates_bulk
    rw [List.forall₂_map_right_iff, List.forall₂_same]
    intro s _
    by_cases hs : s.shipment_id = shipment.id
    · simp [hs]
    · simp [hs]

/-- Witness for C2: one shipment with one step (offset 3), ETA moved to day
100; the step's target date becomes 103, its status and actual date persist. -/
theorem update_eta_recalculates_target_dates_witness :
    List.Forall₂ (fun (old new : WorkflowStep) =>
        (old.shipment_id = 1 → new.target_date = 100 + old.offset_days) ∧
        new.actual_date = old.actual_date ∧
        new.status = old.status)
      [{ id := 7, shipment_id := 1, step_number := 90, step_name := "Bayan",
         description := "", department := "CC", target_date := 53,
         offset_days := 3, actual_date := none, status := StepStatus.pending,
         is_critical := true, ppr_user_id := 2, apr_user_id := none }]
      (ShipmentService.update_eta
        { id := 1, shipment_number := "S-1", principal := "P", brand := "B",
          lc_number := "L", invoice_amount_omr := 10000000, eta := 50,
          eta_edit_count := 0, status := ShipmentStatus.active, version := 1,
          deleted_at := none }
        [{ id := 7, shipment_id := 1, step_number := 90, step_name := "Bayan",
           description := "", department := "CC", target_date := 53,
           offset_days := 3, actual_date := none, status := StepStatus.pending,
           is_critical := true, ppr_user_id := 2, apr_user_id := none }]
        100).steps :=
  update_eta_recalculates_target_dates
    { id := 1, shipment_number := "S-1", principal := "P", brand := "B",
      lc_number := "L", invoice_amount_omr := 10000000, eta := 50,
      eta_edit_count := 0, status := ShipmentStatus.active, version := 1,
      deleted_at := none }
    [{ id := 7, shipment_id := 1, step_number := 90, step_name := "Bayan",
       description := "", department := "CC", target_date := 53,
       offset_days := 3, actual_date := none, status := StepStatus.pending,
       is_critical := true, ppr_user_id := 2, apr_user_id := none }]
    100 rfl

/-- Claim C3: with `eta_edit_count` already at 3 or more, an ETA update is
rejected with the edit-limit error and neither the shipment row nor any
workflow step changes; a successful ETA update increments `eta_edit_count`
by exactly 1; consequently `eta_edit_count` never exceeds 3. -/
theorem update_eta_edit_limit (shipment : Shipment)
    (steps : List WorkflowStep) (new_eta : Int) :
    (3 ≤ shipment.eta_edit_count →
      ShipmentService.update_eta shipment steps new_eta =
        ⟨Except.error ShipmentError.editLimitExceeded, shipment, steps⟩) ∧
    ((ShipmentService.update_eta shipment steps new_eta).result =
        Except.ok () →
      (ShipmentService.update_eta shipment steps new_eta).shipment.eta_edit_count =
        shipment.eta_edit_count + 1) ∧
    (shipment.eta_edit_count ≤ 3 →
      (ShipmentService.update_eta shipment steps new_eta).shipment.eta_edit_count ≤ 3) := by
  refine ⟨?_, ?_, ?_⟩
  · intro hc
    simp [ShipmentService.update_eta, hc]
  · intro hok
    by_cases hc : shipment.eta_edit_count ≥ 3
    · simp [ShipmentService.update_eta, hc] at hok
    · simp [ShipmentService.update_eta, hc, ShipmentRepository.update]
  · intro hle
    by_cases hc : shipment.eta_edit_count ≥ 3
    · simp [ShipmentService.update_eta, hc]
      omega
    · simp [ShipmentService.update_eta, hc, ShipmentRepository.update]
      omega

/-- Witness for C3: a shipment with `eta_edit_count = 3` — the 4th attempted
ETA change is rejected with the edit-limit error and the state is unchanged. -/
theorem update_eta_edit_limit_witness :
    ShipmentService.update_eta
        { id := 1, shipment_number := "S-1", principal := "P", brand := "B",
          lc_number := "L", invoice_amount_omr := 10000000, eta := 50,
          eta_edit_count := 3, status := ShipmentStatus.active, version := 4,
          deleted_at := none } [] 60 =
      ⟨Except.error ShipmentError.editLimitExceeded,
        { id := 1, shipment_number := "S-1", principal := "P", brand := "B",
          lc_number := "L", invoice_amount_omr := 10000000, eta := 50,
          eta_edit_count := 3, status := ShipmentStatus.active, version := 4,
          deleted_at := none }, []⟩ :=
  (update_eta_edit_limit
    { id := 1, shipment_number := "S-1", principal := "P", brand := "B",
      lc_number := "L", invoice_amount_omr := 10000000, eta := 50,
      eta_edit_count := 3, status := ShipmentStatus.active, version := 4,
      deleted_at := none } [] 60).1 (by decide)

/-- `ShipmentUpdate` schema (`app/schemas/shipment.py`): every field
optional; absent fields are left alone by the service. -/
structure ShipmentUpdate where
  principal : Option String
  brand : Option String
  lc_number : Option String
  invoice_amount_omr : Option Int
  status : Option ShipmentStatus
deriving DecidableEq, Repr

/-- `ShipmentService.update_shipment` (`app/services/shipment_service.py`,
lines 122-189).  Applies each provided field that differs from the current
value, recording the audited field name in the `changes` dict, then always
writes through `ShipmentRepository.update` (version bump); audit records are
emitted only for the collected changes.  Returns the updated row together
with the list of audited field names. -/
def ShipmentService.update_shipment (shipment : Shipment)
    (data : ShipmentUpdate) : Except ShipmentError (Shipment × List String) :=
  let r1 : Shipment × List String :=
    match data.principal with
    | some v =>
        if v ≠ shipment.principal then
          ({ shipment with principal := v }, ["principal"])
        else (shipment, [])
    | none => (shipment, [])
  let r2 : Shipment × List String :=
    match data.brand with
    | some v =>
        if v ≠ r1.1.brand then
          ({ r1.1 with brand := v }, r1.2 ++ ["brand"])
        else r1
    | none => r1
  let r3 : Shipment × List String :=
    match data.lc_number with
    | some v =>
        if v ≠ r2.1.lc_number then
          ({ r2.1 with lc_number := v }, r2.2 ++ ["lc_number"])
        else r2
    | none => r2
  let r4 : Shipment × List String :=
    match data.invoice_amount_omr with
    | some v =>
        if v ≠ r3.1.invoice_amount_omr then
          ({ r3.1 with invoice_amount_omr := v }, r3.2 ++ ["invoice_amount_omr"])
        else r3
    | none => r3
  let r5 : Shipment × List String :=
    match data.status with
    | some v =>
        if v ≠ r4.1.status then
          ({ r4.1 with status := v }, r4.2 ++ ["status"])
        else r4
    | none => r4
  match ShipmentRepository.update shipment r5.1 with
  | (Except.error e, _) => Except.error e
  | (Except.ok updated, _) => Except.ok (updated, r5.2)

/-- Claim C10: a field update in which every provided field equals the
current value (or no field is provided) succeeds, still bumps `version` by
exactly 1, leaves every business field unchanged, and emits no audit
record. -/
theorem update_shipment_noop_bumps_version (shipment : Shipment)
    (data : ShipmentUpdate)
    (hp : data.principal = none ∨ data.principal = some shipment.principal)
    (hb : data.brand = none ∨ data.brand = some shipment.brand)
    (hl : data.lc_number = none ∨ data.lc_number = some shipment.lc_number)
    (hi : data.invoice_amount_omr = none ∨
      data.invoice_amount_omr = some shipment.invoice_amount_omr)
    (hs : data.status = none ∨ data.status = some shipment.status) :
    ShipmentService.update_shipment shipment data =
      Except.ok ({ shipment with version := shipment.version + 1 }, []) := by
  unfold ShipmentService.update_shipment
  rcases hp with hp | hp <;> rcases hb with hb | hb <;>
    rcases hl with hl | hl <;> rcases hi with hi | hi <;>
    rcases hs with hs | hs <;>
    simp [hp, hb, hl, hi, hs, ShipmentRepository.update]

/-- Witness for C10: an update that provides no field at all still succeeds
with a version bump and an empty audit list. -/
theorem update_shipment_noop_bumps_version_witness :
    ShipmentService.update_shipment
        { id := 1, shipment_number := "S-1", principal := "P", brand := "B",
          lc_number := "L", invoice_amount_omr := 10000000, eta := 50,
          eta_edit_count := 0, status := ShipmentStatus.active, version := 1,
          deleted_at := none }
        { principal := none, brand := none, lc_number := none,
          invoice_amount_omr := none, status := none } =
      Except.ok
        ({ id := 1, shipment_number := "S-1", principal := "P", brand := "B",
           lc_number := "L", invoice_amount_omr := 10000000, eta := 50,
           eta_edit_count := 0, status := ShipmentStatus.active, version := 2,
           deleted_at := none }, []) :=
  update_shipment_noop_bumps_version
    { id := 1, shipment_number := "S-1", principal := "P", brand := "B",
      lc_number := "L", invoice_amount_omr := 10000000, eta := 50,
      eta_edit_count := 0, status := ShipmentStatus.active, version := 1,
      deleted_at := none }
    { principal := none, brand := none, lc_number := none,
      invoice_amount_omr := none, status := none }
    (Or.inl rfl) (Or.inl rfl) (Or.inl rfl) (Or.inl rfl) (Or.inl rfl)

/-- `WorkflowRepository.get_by_shipment_id`
(`app/repositories/workflow_repository.py`): all workflow steps of one
shipment.  The `ORDER BY step_number` of the source only affects iteration
order, which none of the verified properties depend on. -/
def WorkflowRepository.get_by_shipment_id (steps : List WorkflowStep)
    (shipment_id : Nat) : List WorkflowStep :=
  steps.filter (fun s => s.shipment_id == shipment_id)

/-- `WorkflowService.get_critical_incomplete_steps`
(`app/services/workflow_service.py`, lines 239-261): the shipment's steps
that are critical and not completed. -/
def WorkflowService.get_critical_incomplete_steps (steps : List WorkflowStep)
    (shipment_id : Nat) : List WorkflowStep :=
  (WorkflowRepository.get_by_shipment_id steps shipment_id).filter
    (fun step => step.is_critical && step.status != StepStatus.completed)

/-- `AlertRepository.get_by_shipment`
(`app/repositories/alert_repository.py`, lines 157-176): all alerts of one
shipment (the source's `ORDER BY created_at DESC` only affects order). -/
def AlertRepository.get_by_shipment (alerts : List Alert)
    (shipment_id : Nat) : List Alert :=
  alerts.filter (fun a => a.shipment_id == shipment_id)

/-- The per-alert condition of the deduplication check inside
`AlertService.evaluate_shipment_alerts` (lines 88-94): same workflow step,
same recipient, same `days_post_eta`, not acknowledged. -/
def alertMatches (step_id recipient_user_id : Nat) (days_post_eta : Int)
    (a : Alert) : Bool :=
  a.workflow_step_id == step_id && a.recipient_user_id == recipient_user_id &&
    a.days_post_eta == days_post_eta && !a.is_acknowledged

/-- The `alert_exists` test of `AlertService.evaluate_shipment_alerts`
(lines 87-94): `any` over the shipment's existing alerts. -/
def alert_exists (alerts : List Alert) (shipment_id step_id
    recipient_user_id : Nat) (days_post_eta : Int) : Bool :=
  (AlertRepository.get_by_shipment alerts shipment_id).any
    (alertMatches step_id recipient_user_id days_post_eta)

/-- `AlertService._determine_severity` (`app/services/alert_service.py`,
lines 160-178). -/
def AlertService.determine_severity (days_post_eta : Int) : AlertSeverity :=
  if days_post_eta ≥ ALERT_THRESHOLDS.urgent then AlertSeverity.urgent
  else if days_post_eta ≥ ALERT_THRESHOLDS.critical then AlertSeverity.critical
  else AlertSeverity.warning

/-- `AlertService._determine_recipients` (`app/services/alert_service.py`,
lines 180-221).  Always the PPR user; from day 6 also the APR user when
assigned.  The day-6 manager and day-7 IA / senior-management branches of the
source are placeholders that add nobody (`severity` is accepted but unused,
as in the source). -/
def AlertService.determine_recipients (step : WorkflowStep)
    (severity : AlertSeverity) (days_post_eta : Int) : List Nat :=
  let recipients := [step.ppr_user_id]
  if days_post_eta ≥ 6 then
    match step.apr_user_id with
    | some apr_user_id => recipients ++ [apr_user_id]
    | none => recipients
  else
    recipients

/-- The alert table plus the id the database will assign to the next
inserted alert row. -/
structure AlertDB where
  alerts : List Alert
  nextId : Nat
deriving DecidableEq, Repr

/-- `AlertService.create_alert` (`app/services/alert_service.py`, lines
111-158): builds the message, constructs the alert row (not acknowledged, no
email sent, zero retries) and inserts it. -/
def AlertService.create_alert (db : AlertDB) (shipment : Shipment)
    (step : WorkflowStep) (severity : AlertSeverity)
    (recipient_user_id : Nat) (days_post_eta : Int) : AlertDB × Alert :=
  let message :=
    severity.value.capitalize ++ " step " ++ step.step_name ++
      " is incomplete on Day " ++ toString days_post_eta ++
      " post-ETA for shipment " ++ shipment.shipment_number
  let alert : Alert :=
    { id := db.nextId
      shipment_id := shipment.id
      workflow_step_id := step.id
      recipient_user_id := recipient_user_id
      severity := severity
      message := message
      days_post_eta := days_post_eta
      is_acknowledged := false
      email_sent := false
      email_retry_count := 0 }
  ({ alerts := db.alerts ++ [alert], nextId := db.nextId + 1 }, alert)

/-- The inner `for recipient_user_id in recipients` loop of
`AlertService.evaluate_shipment_alerts` (lines 85-107): dedup-check against
the current alert table, create when no match, accumulate created alerts. -/
def AlertService.processRecipients (shipment : Shipment)
    (step : WorkflowStep) (severity : AlertSeverity) (days_post_eta : Int) :
    List Nat → AlertDB × List Alert → AlertDB × List Alert
  | [], acc => acc
  | recipient_user_id :: rest, acc =>
      if alert_exists acc.1.alerts shipment.id step.id recipient_user_id
          days_post_eta then
        AlertService.processRecipients shipment step severity days_post_eta
          rest acc
      else
        let c := AlertService.create_alert acc.1 shipment step severity
          recipient_user_id days_post_eta
        AlertService.processRecipients shipment step severity days_post_eta
          rest (c.1, acc.2 ++ [c.2])

/-- The outer `for step in critical_incomplete_steps` loop of
`AlertService.evaluate_shipment_alerts` (lines 77-107). -/
def AlertService.processSteps (shipment : Shipment) (days_post_eta : Int) :
    List WorkflowStep → AlertDB × List Alert → AlertDB × List Alert
  | [], acc => acc
  | step :: rest, acc =>
      AlertService.processSteps shipment days_post_eta rest
        (AlertService.processRecipients shipment step
          (AlertService.determine_severity days_post_eta) days_post_eta
          (AlertService.determine_recipients step
            (AlertService.determine_severity days_post_eta) days_post_eta)
          acc)

/-- `AlertService.evaluate_shipment_alerts` (`app/services/alert_service.py`,
lines 36-109): computes `days_post_eta = today - shipment.eta`, no-ops below
the warning threshold or when the shipment has no incomplete critical steps,
otherwise runs the two creation loops.  Returns (alert table after, created
alerts). -/
def AlertService.evaluate_shipment_alerts (db : AlertDB) (shipment : Shipment)
    (steps : List WorkflowStep) (today : Int) : AlertDB × List Alert :=
  let days_post_eta := today - shipment.eta
  if days_post_eta < ALERT_THRESHOLDS.warning then (db, [])
  else
    let critical_incomplete_steps :=
      WorkflowService.get_critical_incomplete_steps steps shipment.id
    if critical_incomplete_steps.isEmpty then (db, [])
    else
      AlertService.processSteps shipment days_post_eta
        critical_incomplete_steps (db, [])

/-- `alert_exists` over a concatenated alert table splits disjunctively. -/
theorem alert_exists_append (l l2 : List Alert) (sid st r : Nat) (d : Int) :
    alert_exists (l ++ l2) sid st r d =
      (alert_exists l sid st r d || alert_exists l2 sid st r d) := by
  simp [alert_exists, AlertRepository.get_by_shipment, List.filter_append]

/-- A freshly created alert satisfies its own deduplication condition. -/
theorem alert_exists_created (db : AlertDB) (shipment : Shipment)
    (step : WorkflowStep) (severity : AlertSeverity) (r : Nat) (d : Int) :
    alert_exists
      [(AlertService.create_alert db shipment step severity r d).2]
      shipment.id step.id r d = true := by
  simp [AlertService.create_alert, alert_exists,
    AlertRepository.get_by_shipment, alertMatches]

/-- The recipient loop only appends to the alert table. -/
theorem processRecipients_alerts_append (shipment : Shipment)
    (step : WorkflowStep) (severity : AlertSeverity) (days : Int) :
    ∀ (recips : List Nat) (acc : AlertDB × List Alert),
      ∃ l, (AlertService.processRecipients shipment step severity days
          recips acc).1.alerts = acc.1.alerts ++ l := by
  intro recips
  induction recips with
  | nil =>
      intro acc
      exact ⟨[], by simp [AlertService.processRecipients]⟩
  | cons r rest ih =>
      intro acc
      by_cases h : alert_exists acc.1.alerts shipment.id step.id r days
      · simpa [AlertService.processRecipients, h] using ih acc
      · obtain ⟨l, hl⟩ := ih
          ((AlertService.create_alert acc.1 shipment step severity r days).1,
           acc.2 ++ [(AlertService.create_alert acc.1 shipment step severity r days).2])
        refine ⟨(AlertService.create_alert acc.1 shipment step severity r days).2 :: l, ?_⟩
        simp only [AlertService.processRecipients, h, if_false, Bool.false_eq_true]
        rw [hl]
        simp [AlertService.create_alert]

/-- The step loop only appends to the alert table. -/
theorem processSteps_alerts_append (shipment : Shipment) (days : Int) :
    ∀ (stepsL : List WorkflowStep) (acc : AlertDB × List Alert),
      ∃ l, (AlertService.processSteps shipment days stepsL acc).1.alerts =
        acc.1.alerts ++ l := by
  intro stepsL
  induction stepsL with
  | nil =>
      intro acc
      exact ⟨[], by simp [AlertService.processSteps]⟩
  | cons s rest ih =>
      intro acc
      obtain ⟨l1, hl1⟩ := processRecipients_alerts_append shipment s
        (AlertService.determine_severity days) days
        (AlertService.determine_recipients s
          (AlertService.determine_severity days) days) acc
      obtain ⟨l2, hl2⟩ := ih
        (AlertService.processRecipients shipment s
          (AlertService.determine_severity days) days
          (AlertService.determine_recipients s
            (AlertService.determine_severity days) days) acc)
      refine ⟨l1 ++ l2, ?_⟩
      simp only [AlertService.processSteps]
      rw [hl2, hl1, List.append_assoc]

/-- After the recipient loop runs, every processed recipient has a matching
non-acknowledged alert in the table. -/
theorem processRecipients_covers (shipment : Shipment) (step : WorkflowStep)
    (severity : AlertSeverity) (days : Int) :
    ∀ (recips : List Nat) (acc : AlertDB × List Alert) (r : Nat),
      r ∈ recips →
      alert_exists (AlertService.processRecipients shipment step severity days
          recips acc).1.alerts shipment.id step.id r days = true := by
  intro recips
  induction recips with
  | nil =>
      intro acc r hr
      simp at hr
  | cons r0 rest ih =>
      intro acc r hr
      rcases List.mem_cons.mp hr with hr0 | hrest
      · subst hr0
        by_cases h : alert_exists acc.1.alerts shipment.id step.id r days
        · obtain ⟨l, hl⟩ := processRecipients_alerts_append shipment step
            severity days rest acc
          simp only [AlertService.processRecipients, h, if_true]
          rw [hl, alert_exists_append, h, Bool.true_or]
        · obtain ⟨l, hl⟩ := processRecipients_alerts_append shipment step
            severity days rest
            ((AlertService.create_alert acc.1 shipment step severity r days).1,
             acc.2 ++ [(AlertService.create_alert acc.1 shipment step severity r days).2])
          simp only [AlertService.processRecipients, h, if_false, Bool.false_eq_true]
          rw [hl]
          have hc : (AlertService.create_alert acc.1 shipment step severity r days).1.alerts =
              acc.1.alerts ++ [(AlertService.create_alert acc.1 shipment step severity r days).2] := by
            simp [AlertService.create_alert]
          rw [hc, List.append_assoc, alert_exists_append, alert_exists_append,
            alert_exists_created]
          simp
      · by_cases h : alert_exists acc.1.alerts shipment.id step.id r0 days
        · simp only [AlertService.processRecipients, h, if_true]
          exact ih acc r hrest
        · simp only [AlertService.processRecipients, h, if_false, Bool.false_eq_true]
          exact ih _ r hrest

/-- If every recipient already has a matching non-acknowledged alert, the
recipient loop is a no-op. -/
theorem processRecipients_stable (shipment : Shipment) (step : WorkflowStep)
    (severity : AlertSeverity) (days : Int) :
    ∀ (recips : List Nat) (acc : AlertDB × List Alert),
      (∀ r ∈ recips,
        alert_exists acc.1.alerts shipment.id step.id r days = true) →
      AlertService.processRecipients shipment step severity days recips acc =
        acc := by
  intro recips
  induction recips with
  | nil =>
      intro acc _
      simp [AlertService.processRecipients]
  | cons r0 rest ih =>
      intro acc hcov
      have h0 : alert_exists acc.1.alerts shipment.id step.id r0 days = true :=
        hcov r0 (List.mem_cons_self r0 rest)
      simp only [AlertService.processRecipients, h0, if_true]
      exact ih acc (fun r hr => hcov r (List.mem_cons_of_mem r0 hr))

/-- After the step loop runs, every (incomplete critical step, recipient)
pair processed has a matching non-acknowledged alert in the table. -/
theorem processSteps_covers (shipment : Shipment) (days : Int) :
    ∀ (stepsL : List WorkflowStep) (acc : AlertDB × List Alert)
      (step : WorkflowStep) (r : Nat), step ∈ stepsL →
      r ∈ AlertService.determine_recipients step
        (AlertService.determine_severity days) days →
      alert_exists (AlertService.processSteps shipment days stepsL acc).1.alerts
        shipment.id step.id r days = true := by
  intro stepsL
  induction stepsL with
  | nil =>
      intro acc step r hstep _
      simp at hstep
  | cons s0 rest ih =>
      intro acc step r hstep hr
      rcases List.mem_cons.mp hstep with hs0 | hrest
      · subst hs0
        obtain ⟨l, hl⟩ := processSteps_alerts_append shipment days rest
          (AlertService.processRecipients shipment step
            (AlertService.determine_severity days) days
            (AlertService.determine_recipients step
              (AlertService.determine_severity days) days) acc)
        simp only [AlertService.processSteps]
        rw [hl, alert_exists_append,
          processRecipients_covers shipment step
            (AlertService.determine_severity days) days _ acc r hr,
          Bool.true_or]
      · simp only [AlertService.processSteps]
        exact ih _ step r hrest hr

/-- If every (step, recipient) pair already has a matching non-acknowledged
alert, the step loop is a no-op. -/
theorem processSteps_stable (shipment : Shipment) (days : Int) :
    ∀ (stepsL : List WorkflowStep) (acc : AlertDB × List Alert),
      (∀ step ∈ stepsL,
        ∀ r ∈ AlertService.determine_recipients step
          (AlertService.determine_severity days) days,
        alert_exists acc.1.alerts shipment.id step.id r days = true) →
      AlertService.processSteps shipment days stepsL acc = acc := by
  intro stepsL
  induction stepsL with
  | nil =>
      intro acc _
      simp [AlertService.processSteps]
  | cons s0 rest ih =>
      intro acc hcov
      have h0 : AlertService.processRecipients shipment s0
          (AlertService.determine_severity days) days
          (AlertService.determine_recipients s0
            (AlertService.determine_severity days) days) acc = acc :=
        processRecipients_stable shipment s0
          (AlertService.determine_severity days) days _ acc
          (hcov s0 (List.mem_cons_self s0 rest))
      simp only [AlertService.processSteps, h0]
      exact ih acc (fun step hs => hcov step (List.mem_cons_of_mem s0 hs))

/-- Claim C4: alert evaluation is idempotent per day — evaluating the same
shipment twice on the same day leaves the alert table exactly as the first
evaluation left it, and the second evaluation creates no alerts at all. -/
theorem evaluate_shipment_alerts_idempotent (db : AlertDB)
    (shipment : Shipment) (steps : List WorkflowStep) (today : Int) :
    AlertService.evaluate_shipment_alerts
        (AlertService.evaluate_shipment_alerts db shipment steps today).1
        shipment steps today =
      ((AlertService.evaluate_shipment_alerts db shipment steps today).1,
       []) := by
  unfold AlertService.evaluate_shipment_alerts
  by_cases hday : today - shipment.eta < ALERT_THRESHOLDS.warning
  · simp [hday]
  · by_cases hcrit : (WorkflowService.get_critical_incomplete_steps steps
        shipment.id).isEmpty
    · simp [hday, hcrit]
    · simp only [hday, hcrit, if_false, Bool.false_eq_true]
      exact processSteps_stable shipment (today - shipment.eta) _ _
        (fun step hs r hr =>
          processSteps_covers shipment (today - shipment.eta) _ (db, [])
            step r hs hr)

/-- Every alert the recipient loop adds to its accumulator carries the
severity the loop was invoked with. -/
theorem processRecipients_created_severity (shipment : Shipment)
    (step : WorkflowStep) (severity : AlertSeverity) (days : Int) :
    ∀ (recips : List Nat) (acc : AlertDB × List Alert) (a : Alert),
      a ∈ (AlertService.processRecipients shipment step severity days
        recips acc).2 →
      a ∈ acc.2 ∨ a.severity = severity := by
  intro recips
  induction recips with
  | nil =>
      intro acc a ha
      simp only [AlertService.processRecipients] at ha
      exact Or.inl ha
  | cons r0 rest ih =>
      intro acc a ha
      by_cases h : alert_exists acc.1.alerts shipment.id step.id r0 days
      · simp only [AlertService.processRecipients, h, if_true] at ha
        exact ih acc a ha
      · simp only [AlertService.processRecipients, h, if_false,
          Bool.false_eq_true] at ha
        rcases ih _ a ha with hmem | hsev
        · rcases List.mem_append.mp hmem with hold | hnew
          · exact Or.inl hold
          · refine Or.inr ?_
            have : a = (AlertService.create_alert acc.1 shipment step severity
                r0 days).2 := by simpa using hnew
            rw [this]
            simp [AlertService.create_alert]
        · exact Or.inr hsev

/-- Every alert the step loop adds to its accumulator carries the severity
determined from `days_post_eta`. -/
theorem processSteps_created_severity (shipment : Shipment) (days : Int) :
    ∀ (stepsL : List WorkflowStep) (acc : AlertDB × List Alert) (a : Alert),
      a ∈ (AlertService.processSteps shipment days stepsL acc).2 →
      a ∈ acc.2 ∨ a.severity = AlertService.determine_severity days := by
  intro stepsL
  induction stepsL with
  | nil =>
      intro acc a ha
      simp only [AlertService.processSteps] at ha
      exact Or.inl ha
  | cons s0 rest ih =>
      intro acc a ha
      simp only [AlertService.processSteps] at ha
      rcases ih _ a ha with hmem | hsev
      · exact processRecipients_created_severity shipment s0
          (AlertService.determine_severity days) days _ acc a hmem
      · exact Or.inr hsev

/-- Claim C6: with `days_post_eta < 4` evaluation is a no-op creating no
alerts; otherwise every created alert's severity is Urgent for
`days_post_eta ≥ 7`, Critical for `5 ≤ days_post_eta < 7` and Warning for
`4 ≤ days_post_eta < 5`, each boundary inclusive of its lower bound. -/
theorem alert_severity_mapping (db : AlertDB) (shipment : Shipment)
    (steps : List WorkflowStep) (today : Int) :
    (today - shipment.eta < 4 →
      AlertService.evaluate_shipment_alerts db shipment steps today =
        (db, [])) ∧
    (∀ a ∈ (AlertService.evaluate_shipment_alerts db shipment steps today).2,
      (7 ≤ today - shipment.eta → a.severity = AlertSeverity.urgent) ∧
      (5 ≤ today - shipment.eta → today - shipment.eta < 7 →
        a.severity = AlertSeverity.critical) ∧
      (4 ≤ today - shipment.eta → today - shipment.eta < 5 →
        a.severity = AlertSeverity.warning)) := by
  constructor
  · intro hday
    have : today - shipment.eta < ALERT_THRESHOLDS.warning := hday
    simp [AlertService.evaluate_shipment_alerts, this]
  · intro a ha
    have hsev : a.severity = AlertService.determine_severity
        (today - shipment.eta) := by
      unfold AlertService.evaluate_shipment_alerts at ha
      by_cases hday : today - shipment.eta < ALERT_THRESHOLDS.warning
      · simp [hday] at ha
      · by_cases hcrit : (WorkflowService.get_critical_incomplete_steps steps
            shipment.id).isEmpty
        · simp [hday, hcrit] at ha
        · simp only [hday, hcrit, if_false, Bool.false_eq_true] at ha
          rcases processSteps_created_severity shipment
            (today - shipment.eta) _ (db, []) a ha with hmem | hs
          · simp at hmem
          · exact hs
    refine ⟨?_, ?_, ?_⟩
    · intro h7
      rw [hsev]
      simp only [AlertService.determine_severity, ALERT_THRESHOLDS.urgent,
        ALERT_THRESHOLDS.critical]
      rw [if_pos (by omega : today - shipment.eta ≥ (7 : Int))]
    · intro h5 h7
      rw [hsev]
      simp only [AlertService.determine_severity, ALERT_THRESHOLDS.urgent,
        ALERT_THRESHOLDS.critical]
      rw [if_neg (by omega : ¬ today - shipment.eta ≥ (7 : Int)),
        if_pos (by omega : today - shipment.eta ≥ (5 : Int))]
    · intro h4 h5
      rw [hsev]
      simp only [AlertService.determine_severity, ALERT_THRESHOLDS.urgent,
        ALERT_THRESHOLDS.critical]
      rw [if_neg (by omega : ¬ today - shipment.eta ≥ (7 : Int)),
        if_neg (by omega : ¬ today - shipment.eta ≥ (5 : Int))]

/-- Witness for C6 at a concrete state: three days past ETA, evaluation is a
no-op even with an incomplete critical step present. -/
theorem alert_severity_mapping_witness :
    AlertService.evaluate_shipment_alerts ⟨[], 1⟩
        { id := 1, shipment_number := "S-1", principal := "P", brand := "B",
          lc_number := "L", invoice_amount_omr := 10000000, eta := 50,
          eta_edit_count := 0, status := ShipmentStatus.active, version := 1,
          deleted_at := none }
        [{ id := 7, shipment_id := 1, step_number := 90, step_name := "Bayan",
           description := "", department := "CC", target_date := 53,
           offset_days := 3, actual_date := none, status := StepStatus.pending,
           is_critical := true, ppr_user_id := 2, apr_user_id := none }]
        53 = (⟨[], 1⟩, []) :=
  (alert_severity_mapping ⟨[], 1⟩
    { id := 1, shipment_number := "S-1", principal := "P", brand := "B",
      lc_number := "L", invoice_amount_omr := 10000000, eta := 50,
      eta_edit_count := 0, status := ShipmentStatus.active, version := 1,
      deleted_at := none }
    [{ id := 7, shipment_id := 1, step_number := 90, step_name := "Bayan",
       description := "", department := "CC", target_date := 53,
       offset_days := 3, actual_date := none, status := StepStatus.pending,
       is_critical := true, ppr_user_id := 2, apr_user_id := none }]
    53).1 (by decide)

/-- Claim C8: the recipient set for an incomplete critical step always
contains the step's PPR user; from `days_post_eta ≥ 6` it also contains the
APR user when one is assigned; below day 6 it is exactly the PPR user. -/
theorem determine_recipients_spec (step : WorkflowStep)
    (severity : AlertSeverity) (days_post_eta : Int) :
    step.ppr_user_id ∈
      AlertService.determine_recipients step severity days_post_eta ∧
    (6 ≤ days_post_eta → ∀ apr, step.apr_user_id = some apr →
      AlertService.determine_recipients step severity days_post_eta =
        [step.ppr_user_id, apr]) ∧
    (days_post_eta < 6 →
      AlertService.determine_recipients step severity days_post_eta =
        [step.ppr_user_id]) := by
  refine ⟨?_, ?_, ?_⟩
  · unfold AlertService.determine_recipients
    by_cases h : days_post_eta ≥ 6
    · cases hapr : step.apr_user_id <;> simp [h, hapr]
    · simp [h]
  · intro h6 apr hapr
    simp [AlertService.determine_recipients, h6, hapr]
  · intro h6
    unfold AlertService.determine_recipients
    rw [if_neg (by omega : ¬ days_post_eta ≥ 6)]

/-- Witness for C8 at day 6 with an assigned APR: the recipients are exactly
PPR then APR. -/
theorem determine_recipients_spec_witness :
    AlertService.determine_recipients
        { id := 7, shipment_id := 1, step_number := 90, step_name := "Bayan",
          description := "", department := "CC", target_date := 53,
          offset_days := 3, actual_date := none, status := StepStatus.pending,
          is_critical := true, ppr_user_id := 2, apr_user_id := some 5 }
        AlertSeverity.critical 6 = [2, 5] :=
  ((determine_recipients_spec
    { id := 7, shipment_id := 1, step_number := 90, step_name := "Bayan",
      description := "", department := "CC", target_date := 53,
      offset_days := 3, actual_date := none, status := StepStatus.pending,
      is_critical := true, ppr_user_id := 2, apr_user_id := some 5 }
    AlertSeverity.critical 6).2.1 (by decide) 5 rfl)

/-- `WorkflowService.generate_workflow_steps`
(`app/services/workflow_service.py`, lines 42-105): one step per template,
with `target_date = shipment.eta + offset_days`, status Pending, no actual
date, and PPR/APR resolved from the per-department assignment map
(`_get_user_assignments`, which already applies the fallback defaults). -/
def WorkflowService.generate_workflow_steps (shipment : Shipment)
    (templates : List TemplateDict)
    (user_assignments : String → Nat × Option Nat) : List WorkflowStep :=
  templates.map (fun template =>
    { id := 0
      shipment_id := shipment.id
      step_number := template.step_number
      step_name := template.step_name
      description := template.description
      department := template.department
      target_date := shipment.eta + template.offset_days
      offset_days := template.offset_days
      actual_date := none
      status := StepStatus.pending
      is_critical := template.is_critical
      ppr_user_id := (user_assignments template.department).1
      apr_user_id := (user_assignments template.department).2 })

/-- Claim C5: workflow-step generation produces exactly one step per active
template — the step count equals the template count and the list of
generated step numbers is exactly the list of template step numbers (hence
equal as multisets, and each number occurring exactly once when the catalog's
step numbers are distinct) — and each step is Pending with no actual date and
`target_date = eta + offset_days`. -/
theorem generate_workflow_steps_spec (shipment : Shipment)
    (templates : List TemplateDict)
    (user_assignments : String → Nat × Option Nat) :
    (WorkflowService.generate_workflow_steps shipment templates
        user_assignments).length = templates.length ∧
    (WorkflowService.generate_workflow_steps shipment templates
        user_assignments).map WorkflowStep.step_number =
      templates.map TemplateDict.step_number ∧
    ((templates.map TemplateDict.step_number).Nodup →
      ((WorkflowService.generate_workflow_steps shipment templates
        user_assignments).map WorkflowStep.step_number).Nodup) ∧
    List.Forall₂ (fun (template : TemplateDict) (step : WorkflowStep) =>
        step.step_number = template.step_number ∧
        step.target_date = shipment.eta + template.offset_days ∧
        step.offset_days = template.offset_days ∧
        step.status = StepStatus.pending ∧
        step.actual_date = none)
      templates
      (WorkflowService.generate_workflow_steps shipment templates
        user_assignments) := by
  have hmap : (WorkflowService.generate_workflow_steps shipment templates
      user_assignments).map WorkflowStep.step_number =
      templates.map TemplateDict.step_number := by
    unfold WorkflowService.generate_workflow_steps
    rw [List.map_map]
    rfl
  refine ⟨?_, hmap, ?_, ?_⟩
  · unfold WorkflowService.generate_workflow_steps
    exact List.length_map _ _
  · intro hnd
    rw [hmap]
    exact hnd
  · unfold WorkflowService.generate_workflow_steps
    rw [List.forall₂_map_right_iff, List.forall₂_same]
    intro t _
    exact ⟨rfl, rfl, rfl, rfl, rfl⟩

/-- Witness for C5 on a two-template catalog with distinct step numbers:
the generated step numbers are exactly the template numbers, without
repetition. -/
theorem generate_workflow_steps_spec_witness :
    (WorkflowService.generate_workflow_steps
        { id := 1, shipment_number := "S-1", principal := "P", brand := "B",
          lc_number := "L", invoice_amount_omr := 10000000, eta := 50,
          eta_edit_count := 0, status := ShipmentStatus.active, version := 1,
          deleted_at := none }
        [{ step_number := 10, step_name := "A", description := "",
           department := "BusinessUnit", offset_days := -5,
           is_critical := false },
         { step_number := 90, step_name := "Bayan", description := "",
           department := "CC", offset_days := 0, is_critical := true }]
        (fun _ => (1, none))).map WorkflowStep.step_number = [10, 90] ∧
    ((WorkflowService.generate_workflow_steps
        { id := 1, shipment_number := "S-1", principal := "P", brand := "B",
          lc_number := "L", invoice_amount_omr := 10000000, eta := 50,
          eta_edit_count := 0, status := ShipmentStatus.active, version := 1,
          deleted_at := none }
        [{ step_number := 10, step_name := "A", description := "",
           department := "BusinessUnit", offset_days := -5,
           is_critical := false },
         { step_number := 90, step_name := "Bayan", description := "",
           department := "CC", offset_days := 0, is_critical := true }]
        (fun _ => (1, none))).map WorkflowStep.step_number).Nodup :=
  ⟨(generate_workflow_steps_spec
      { id := 1, shipment_number := "S-1", principal := "P", brand := "B",
        lc_number := "L", invoice_amount_omr := 10000000, eta := 50,
        eta_edit_count := 0, status := ShipmentStatus.active, version := 1,
        deleted_at := none }
      [{ step_number := 10, step_name := "A", description := "",
         department := "BusinessUnit", offset_days := -5,
         is_critical := false },
       { step_number := 90, step_name := "Bayan", description := "",
         department := "CC", offset_days := 0, is_critical := true }]
      (fun _ => (1, none))).2.1,
   (generate_workflow_steps_spec
      { id := 1, shipment_number := "S-1", principal := "P", brand := "B",
        lc_number := "L", invoice_amount_omr := 10000000, eta := 50,
        eta_edit_count := 0, status := ShipmentStatus.active, version := 1,
        deleted_at := none }
      [{ step_number := 10, step_name := "A", description := "",
         department := "BusinessUnit", offset_days := -5,
         is_critical := false },
       { step_number := 90, step_name := "Bayan", description := "",
         department := "CC", offset_days := 0, is_critical := true }]
      (fun _ => (1, none))).2.2.1 (by decide)⟩

/-- The outcome of one `send_alert_email` task invocation
(`app/tasks/email_tasks.py`): the returned status dict's `status` field,
with `retrying` standing for the `self.retry(...)` signal that makes Celery
re-run the task after the fixed 5-minute delay. -/
inductive SendStatus where
  | not_found
  | already_sent
  | sent
  | retrying
  | failed
deriving DecidableEq, Repr

/-- `send_alert_email` (`app/tasks/email_tasks.py`, lines 184-308) for one
invocation.  `alert?` is the loaded row (`none` when absent); `deliveryOk`
is the boolean result of the external SMTP collaborator.  If the email was
already sent the task returns without attempting delivery or touching the
row.  On success it marks the row sent.  On failure it increments
`email_retry_count`; while the new count is below 3 it signals a retry,
at 3 it gives up leaving `email_sent = false`.  Returns (status, row after
the call). -/
def send_alert_email (alert? : Option Alert) (deliveryOk : Bool) :
    SendStatus × Option Alert :=
  match alert? with
  | none => (SendStatus.not_found, none)
  | some alert =>
    if alert.email_sent then (SendStatus.already_sent, some alert)
    else if deliveryOk then
      (SendStatus.sent, some { alert with email_sent := true })
    else
      let updated :=
        { alert with email_retry_count := alert.email_retry_count + 1 }
      if updated.email_retry_count < 3 then
        (SendStatus.retrying, some updated)
      else
        (SendStatus.failed, some updated)

/-- The automatic retry chain Celery runs for one enqueued
`send_alert_email` task: the task executes against the current row with the
next delivery outcome, and runs again only while it signalled `retrying`.
Returns (last status, row after, number of attempts actually made).  With no
outcome left (`[]`) no attempt is made and the `retrying` signal stands. -/
def delivery_attempts : Alert → List Bool → SendStatus × Alert × Nat
  | alert, [] => (SendStatus.retrying, alert, 0)
  | alert, deliveryOk :: rest =>
    match send_alert_email (some alert) deliveryOk with
    | (SendStatus.retrying, some a2) =>
        let r := delivery_attempts a2 rest
        (r.1, r.2.1, r.2.2 + 1)
    | (st, some a2) => (st, a2, 1)
    | (st, none) => (st, alert, 1)

/-- Claim C7: a send on an already-sent alert returns `already_sent` without
change; a failed delivery increments `email_retry_count` and signals a retry
exactly while the count is below 3; a fresh alert whose delivery fails three
consecutive times ends with `email_retry_count = 3`, `email_sent = false`,
status `failed`, and exactly 3 attempts are made no matter how many further
outcomes would be available (no 4th automatic attempt). -/
theorem send_alert_email_retry_policy (a : Alert) (deliveryOk : Bool)
    (rest : List Bool) :
    (a.email_sent = true →
      send_alert_email (some a) deliveryOk = (SendStatus.already_sent, some a)) ∧
    (a.email_sent = false →
      send_alert_email (some a) false =
        (if a.email_retry_count + 1 < 3 then SendStatus.retrying
         else SendStatus.failed,
         some { a with email_retry_count := a.email_retry_count + 1 })) ∧
    (a.email_sent = false → a.email_retry_count = 0 →
      delivery_attempts a (false :: false :: false :: rest) =
        (SendStatus.failed, { a with email_retry_count := 3 }, 3)) := by
  refine ⟨?_, ?_, ?_⟩
  · intro hs
    simp [send_alert_email, hs]
  · intro hs
    by_cases hr : a.email_retry_count + 1 < 3 <;>
      simp [send_alert_email, hs, hr]
  · intro hs hr
    simp [delivery_attempts, send_alert_email, hs, hr]

/-- Witness for C7: a fresh alert failing three times in a row reaches retry
count 3, stays unsent, and makes exactly 3 attempts even though two more
outcomes are available. -/
theorem send_alert_email_retry_policy_witness :
    delivery_attempts
        { id := 9, shipment_id := 1, workflow_step_id := 7,
          recipient_user_id := 2, severity := AlertSeverity.urgent,
          message := "m", days_post_eta := 8, is_acknowledged := false,
          email_sent := false, email_retry_count := 0 }
        [false, false, false, true, true] =
      (SendStatus.failed,
        { id := 9, shipment_id := 1, workflow_step_id := 7,
          recipient_user_id := 2, severity := AlertSeverity.urgent,
          message := "m", days_post_eta := 8, is_acknowledged := false,
          email_sent := false, email_retry_count := 3 }, 3) :=
  (send_alert_email_retry_policy
    { id := 9, shipment_id := 1, workflow_step_id := 7,
      recipient_user_id := 2, severity := AlertSeverity.urgent,
      message := "m", days_post_eta := 8, is_acknowledged := false,
      email_sent := false, email_retry_count := 0 }
    false [true, true]).2.2 rfl rfl

/-- `AlertRepository.get_pending_notifications`
(`app/repositories/alert_repository.py`, lines 178-195): all alerts with
`email_sent = False`; there is no condition on `email_retry_count`. -/
def AlertRepository.get_pending_notifications (alerts : List Alert) :
    List Alert :=
  alerts.filter (fun a => a.email_sent == false)

/-- `process_email_notifications_task` (`app/tasks/email_tasks.py`, lines
311-381): queues a `send_alert_email` task for every pending alert; returns
the queued alert ids. -/
def process_email_notifications_task (alerts : List Alert) : List Nat :=
  (AlertRepository.get_pending_notifications alerts).map (fun a => a.id)

/-- Claim C9: the pending-notification sweep selects exactly the alerts with
`email_sent = false` with no filter on `email_retry_count` — an alert with an
exhausted retry budget is still selected and re-enqueued, and the enqueued
send against such an alert is a real delivery attempt (not short-circuited
as already sent). -/
theorem pending_notifications_no_retry_filter (alerts : List Alert)
    (a : Alert) :
    (a ∈ AlertRepository.get_pending_notifications alerts ↔
      a ∈ alerts ∧ a.email_sent = false) ∧
    (a ∈ alerts → a.email_sent = false →
      a.id ∈ process_email_notifications_task alerts) ∧
    (a.email_sent = false →
      send_alert_email (some a) true =
        (SendStatus.sent, some { a with email_sent := true })) := by
  refine ⟨?_, ?_, ?_⟩
  · simp [AlertRepository.get_pending_notifications, List.mem_filter]
  · intro hmem hsent
    simp only [process_email_notifications_task, List.mem_map]
    exact ⟨a, by
      simp [AlertRepository.get_pending_notifications, List.mem_filter,
        hmem, hsent], rfl⟩
  · intro hsent
    simp [send_alert_email, hsent]

/-- Witness for C9: an alert with `email_retry_count = 3` and
`email_sent = false` is still queued by the sweep. -/
theorem pending_notifications_no_retry_filter_witness :
    (9 : Nat) ∈ process_email_notifications_task
      [{ id := 9, shipment_id := 1, workflow_step_id := 7,
         recipient_user_id := 2, severity := AlertSeverity.urgent,
         message := "m", days_post_eta := 8, is_acknowledged := false,
         email_sent := false, email_retry_count := 3 }] :=
  (pending_notifications_no_retry_filter
    [{ id := 9, shipment_id := 1, workflow_step_id := 7,
       recipient_user_id := 2, severity := AlertSeverity.urgent,
       message := "m", days_post_eta := 8, is_acknowledged := false,
       email_sent := false, email_retry_count := 3 }]
    { id := 9, shipment_id := 1, workflow_step_id := 7,
      recipient_user_id := 2, severity := AlertSeverity.urgent,
      message := "m", days_post_eta := 8, is_acknowledged := false,
      email_sent := false, email_retry_count := 3 }).2.1
    (List.mem_singleton.mpr rfl) rfl
